import Mathlib

/-!
Verification development for the `InputTools` composition controller
(`src/components/InputTools/InputTools.tsx`): a React transliteration
input widget.  The component's state and event handlers are shallowly
embedded below; JavaScript strings are modelled as Lean `String`s with
explicit helpers mirroring `substring` / `slice` semantics (which clamp
out-of-range indices), and the JSON response of the suggestion fetch is
modelled by the inductive type `JVal`.
-/

/-- JS `s.substring(0, n)` (clamping): the first `n` characters. -/
def jsTake (s : String) (n : Nat) : String := String.mk (s.data.take n)

/-- JS `s.substring(n, s.length)` (clamping): all but the first `n` characters. -/
def jsDrop (s : String) (n : Nat) : String := String.mk (s.data.drop n)

/-- JS `s.slice(0, -1)`: drop the last character (identity on `""`). -/
def jsDropLast (s : String) : String := String.mk s.data.dropLast

/-- JS `s.slice(-1)`: the last character as a string (`""` on `""`). -/
def jsLast (s : String) : String := String.mk (s.data.drop (s.data.length - 1))

/-- Predicate `isAplhaNumeric` (sic, name from the source): tests the regex
`/^[A-Za-z0-9]$/`, i.e. the string is one ASCII alphanumeric character. -/
def isAplhaNumeric (val : String) : Bool :=
  match val.data with
  | [c] => (('A' ≤ c && c ≤ 'Z') || ('a' ≤ c && c ≤ 'z') || ('0' ≤ c && c ≤ '9'))
  | _ => false

/-- State of the controller: the `useState` hooks of `InputTools` plus the
`metaKey` ref.  `showSuggestion` is `true` for `DISPLAY_BLOCK` and `false`
for `DISPLAY_NONE`.  The pixel fields `leftPos`/`topPos` are derived
presentation data (computed from the DOM) and are not modelled. -/
structure ITState where
  value : String
  typedWord : String
  suggestion : List String
  showSuggestion : Bool
  selectedSuggestion : Nat
  cursorPosition : Nat
  metaKey : Bool
deriving Repr, DecidableEq

/-- The initial state of the hooks:
`useState('')`, `useState('')`, `useState<string[]>([])`,
`useState(DISPLAY_NONE)`, `useState(0)`, `useState(1)`, `useRef(false)`. -/
def initState : ITState :=
  { value := ""
    typedWord := ""
    suggestion := []
    showSuggestion := false
    selectedSuggestion := 0
    cursorPosition := 1
    metaKey := false }

/-- Handler `clearSuggestion`: reset `typedWord`, `suggestion`,
`selectedSuggestion`, hide the popup and release the meta-key flag. -/
def clearSuggestion (s : ITState) : ITState :=
  { s with typedWord := "", suggestion := [], selectedSuggestion := 0,
           showSuggestion := false, metaKey := false }

/-- Handler `selectSuggestion(idx)`: look up `suggestion[idx]` (JS yields
`undefined` out of range; the subsequent `if(selectedValue)` truthiness test
treats both `undefined` and the empty string as "no candidate", modelled by
comparing `(s.suggestion.getD idx "")` with `""`); when a truthy candidate
exists, splice it (plus a trailing space) into `value` at `cursorPosition`
and advance the cursor; in all cases finish with `clearSuggestion`. -/
def selectSuggestion (s : ITState) (idx : Nat) : ITState :=
  let selectedValue := s.suggestion.getD idx ""
  let leftValue := jsTake s.value s.cursorPosition
  let rightValue := jsDrop s.value s.cursorPosition
  let s1 :=
    if selectedValue ≠ "" then
      { s with value := leftValue ++ selectedValue ++ " " ++ rightValue,
               cursorPosition := s.cursorPosition + selectedValue.length + 1 }
    else s
  clearSuggestion s1

/-- Handler `handleNonAlphaKeyPress(key)`: the `switch` over control keys,
reached only while the popup is visible. -/
def handleNonAlphaKeyPress (s : ITState) (key : String) : ITState :=
  if key = "ArrowDown" then
    { s with selectedSuggestion :=
        if s.selectedSuggestion < s.suggestion.length - 1 then
          s.selectedSuggestion + 1
        else s.selectedSuggestion }
  else if key = "ArrowUp" then
    { s with selectedSuggestion :=
        if 0 < s.selectedSuggestion then s.selectedSuggestion - 1
        else s.selectedSuggestion }
  else if key = "Enter" then selectSuggestion s s.selectedSuggestion
  else if key = " " then selectSuggestion s s.selectedSuggestion
  else if key = "Backspace" then
    if s.typedWord ≠ "" then { s with typedWord := jsDropLast s.typedWord }
    else clearSuggestion s
  else s

/-- A keyboard event as seen by `onKeyUp`/`onKeyDown`. -/
structure KeyEvent where
  key : String
  metaKey : Bool
deriving Repr, DecidableEq

/-- Handler `onKeyDown`: record that a platform modifier is held. -/
def onKeyDown (s : ITState) (ev : KeyEvent) : ITState :=
  if ev.metaKey then { s with metaKey := true } else s

/-- Handler `onKeyUp`: the main key classifier.  Meta events only schedule a
delayed reset of the flag (`setTimeout`), so the synchronous state is
unchanged; the delayed reset itself is the timer event `metaKeyTimerFire`. -/
def onKeyUp (s : ITState) (ev : KeyEvent) : ITState :=
  if ev.metaKey || ev.key = "Meta" then s
  else if s.metaKey then s
  else if isAplhaNumeric ev.key then
    { s with showSuggestion := true, typedWord := s.typedWord ++ ev.key }
  else if s.showSuggestion = false then s
  else handleNonAlphaKeyPress s ev.key

/-- The `setTimeout(()=> { metaKey.current = false }, 100)` callback. -/
def metaKeyTimerFire (s : ITState) : ITState := { s with metaKey := false }

/-- A native change event of the textarea: the field's reported value and
selection offsets. -/
structure ChangeEvent where
  value : String
  selectionStart : Nat
  selectionEnd : Nat
deriving Repr, DecidableEq

/-- A JSON value, as delivered by `res.json()` in `debouncedSearch`. -/
inductive JVal where
  | jstr (s : String)
  | jarr (xs : List JVal)
  | jnum (n : Int)
  | jbool (b : Bool)
  | jnull
deriving Repr

/-- JS spread `[...v]`: arrays yield their elements, strings are iterable and
yield their characters as one-character strings, anything else raises
`TypeError: v is not iterable` (modelled as `none`). -/
def JVal.spread : JVal → Option (List JVal)
  | .jarr xs => some xs
  | .jstr s => some (s.data.map (fun c => JVal.jstr (String.mk [c])))
  | _ => none

/-- Outcome of the response-handling part of `debouncedSearch`:
`silent` is an early `return` (no state change), `thrown` is an uncaught
exception from the spread, `setSuggestions xs` is the `setSuggestion` call. -/
inductive SearchOutcome where
  | silent
  | thrown
  | setSuggestions (xs : List JVal)
deriving Repr

/-- The body of `debouncedSearch` after `await res.json()` produced `data`:
`return` unless `data` is an array of length ≥ 2 whose element 0 is the
string 'SUCCESS' and whose element 1 is a non-empty array; then `return`
unless `data[1][0]` is an array `dataRes` of length ≥ 2; then evaluate
`[...dataRes[1], dataRes[0]]` and call `setSuggestion` on it. -/
def handleResponse (data : JVal) : SearchOutcome :=
  match data with
  | .jarr (.jstr m :: d1 :: _) =>
    if m = "SUCCESS" then
      match d1 with
      | .jarr (e0 :: _) =>
        match e0 with
        | .jarr (f0 :: f1 :: _) =>
          match f1.spread with
          | some alts => .setSuggestions (alts ++ [f0])
          | none => .thrown
        | _ => .silent
      | _ => .silent
    else .silent
  | _ => .silent

/-- Whether `data` passes every guard of `debouncedSearch` before the spread
(array, length ≥ 2, marker 'SUCCESS', `data[1]` a non-empty array,
`data[1][0]` an array of length ≥ 2). -/
def passesChecks : JVal → Bool
  | .jarr (.jstr m :: d1 :: _) =>
    if m = "SUCCESS" then
      match d1 with
      | .jarr (e0 :: _) =>
        match e0 with
        | .jarr (_ :: _ :: _) => true
        | _ => false
      | _ => false
    else false
  | _ => false

/-- Whole `debouncedSearch(word)` call: `if(!word) return;` fires no request;
otherwise the request is made and the response `data` is handled. -/
inductive DebounceOutcome where
  | noFetch
  | fetched (o : SearchOutcome)
deriving Repr

/-- `debouncedSearch` applied to `word`, with `data` the JSON the network
returns when a request is actually issued. -/
def debouncedSearch (word : String) (data : JVal) : DebounceOutcome :=
  if word = "" then .noFetch else .fetched (handleResponse data)

/-- JS string coercion of a value, as used when a suggestion entry is
interpolated/rendered as text. -/
def jvalToString : JVal → String
  | .jstr s => s
  | .jnum n => toString n
  | .jbool b => if b then "true" else "false"
  | .jnull => "null"
  | .jarr xs => String.intercalate "," (xs.map fun x =>
      match x with
      | .jstr s => s
      | .jnum n => toString n
      | .jbool b => if b then "true" else "false"
      | _ => "")

/-- Effect of a `debouncedSearch` outcome on the controller state: only a
reached `setSuggestion` call changes anything. -/
def applySearchOutcome (s : ITState) : DebounceOutcome → ITState
  | .noFetch => s
  | .fetched .silent => s
  | .fetched .thrown => s
  | .fetched (.setSuggestions xs) => { s with suggestion := xs.map jvalToString }

/-- Handler `onChange`: while the popup is visible the native edit is
rejected; otherwise, if the character just before `selectionStart` is
alphanumeric, only the cursor is updated (to `selectionEnd - 1`, a
truncated subtraction here since browser events satisfy
`1 ≤ selectionStart ≤ selectionEnd` whenever that branch is taken), and the
`return` statement skips `setValue`; otherwise cursor and value are
adopted from the event. -/
def onChange (s : ITState) (ev : ChangeEvent) : ITState :=
  if s.showSuggestion then s
  else
    let lastChar := jsLast (jsTake ev.value ev.selectionStart)
    if isAplhaNumeric lastChar then
      { s with cursorPosition := ev.selectionEnd - 1 }
    else
      { s with cursorPosition := ev.selectionEnd, value := ev.value }

/-! ## Helper lemmas -/

theorem jsDropLast_length (w : String) : (jsDropLast w).length = w.length - 1 :=
  List.length_dropLast w.data

/-! ## Claim theorems -/

/-- C3: the claim states that in every reachable state, including the
initial one, `0 ≤ cursorPosition ≤ length(value)`.  The initial hooks set
`cursorPosition` to `1` while `value` is the empty string, so the bound
already fails in the initial state: the code contradicts the documented
invariant. -/
theorem c3_initial_state_violates_cursor_bound :
    initState.cursorPosition = 1 ∧ initState.value.length = 0 ∧
    ¬ initState.cursorPosition ≤ initState.value.length := by
  refine ⟨rfl, rfl, ?_⟩
  decide

/-- C7: a native change event arriving while the popup is visible is
rejected outright; the whole controller state is unchanged. -/
theorem c7_change_rejected_while_popup_visible (s : ITState) (ev : ChangeEvent)
    (hvis : s.showSuggestion = true) : onChange s ev = s := by
  simp [onChange, hvis]

theorem c7_witness :
    onChange { initState with showSuggestion := true }
      { value := "a", selectionStart := 1, selectionEnd := 1 } =
      { initState with showSuggestion := true } :=
  c7_change_rejected_while_popup_visible _ _ rfl

/-- C9: while the platform-modifier suppression flag is set, an
alphanumeric key event leaves the whole state (in particular `typedWord`
and the rest of the composition state) unchanged. -/
theorem c9_meta_flag_suppresses_alphanumeric (s : ITState) (ev : KeyEvent)
    (hmeta : s.metaKey = true) (_halpha : isAplhaNumeric ev.key = true) :
    onKeyUp s ev = s := by
  unfold onKeyUp
  by_cases hm : (ev.metaKey || decide (ev.key = "Meta")) = true
  · simp [hm]
  · simp [hm, hmeta]

theorem c9_witness :
    onKeyUp { initState with metaKey := true, typedWord := "ab" }
      { key := "c", metaKey := true } =
      { initState with metaKey := true, typedWord := "ab" } :=
  c9_meta_flag_suppresses_alphanumeric _ _ rfl (by decide)

/-- C8: committing with an index that has no candidate (out of range of
`suggestions`) leaves `value` and `cursorPosition` untouched while still
clearing the composition state (empty `typedWord`, empty `suggestions`,
`selectedIndex` 0, popup hidden). -/
theorem c8_out_of_range_commit_clears_only (s : ITState) (idx : Nat)
    (h : s.suggestion[idx]? = none) :
    (selectSuggestion s idx).value = s.value ∧
    (selectSuggestion s idx).cursorPosition = s.cursorPosition ∧
    (selectSuggestion s idx).typedWord = "" ∧
    (selectSuggestion s idx).suggestion = [] ∧
    (selectSuggestion s idx).selectedSuggestion = 0 ∧
    (selectSuggestion s idx).showSuggestion = false := by
  simp [selectSuggestion, List.getD, h, clearSuggestion]

theorem c8_witness :
    (selectSuggestion ⟨"ab", "q", ["x"], true, 0, 1, false⟩ 5).value = "ab" ∧
    (selectSuggestion ⟨"ab", "q", ["x"], true, 0, 1, false⟩ 5).cursorPosition = 1 ∧
    (selectSuggestion ⟨"ab", "q", ["x"], true, 0, 1, false⟩ 5).typedWord = "" ∧
    (selectSuggestion ⟨"ab", "q", ["x"], true, 0, 1, false⟩ 5).suggestion = [] ∧
    (selectSuggestion ⟨"ab", "q", ["x"], true, 0, 1, false⟩ 5).selectedSuggestion = 0 ∧
    (selectSuggestion ⟨"ab", "q", ["x"], true, 0, 1, false⟩ 5).showSuggestion = false :=
  c8_out_of_range_commit_clears_only ⟨"ab", "q", ["x"], true, 0, 1, false⟩ 5 rfl

/-- C10: a debounced search invoked with the empty word issues no network
request and leaves the state unchanged, and an actually issued fetch can
only come from a non-empty word. -/
theorem c10_empty_word_no_fetch (data : JVal) (s : ITState) :
    debouncedSearch "" data = DebounceOutcome.noFetch ∧
    applySearchOutcome s (debouncedSearch "" data) = s ∧
    (∀ w o, debouncedSearch w data = DebounceOutcome.fetched o → w ≠ "") := by
  refine ⟨by simp [debouncedSearch], by simp [debouncedSearch, applySearchOutcome], ?_⟩
  intro w o h hw
  subst hw
  simp [debouncedSearch] at h

theorem c10_witness :
    applySearchOutcome initState (debouncedSearch "" JVal.jnull) = initState ∧
    ("hi" : String) ≠ "" :=
  ⟨(c10_empty_word_no_fetch JVal.jnull initState).2.1,
   (c10_empty_word_no_fetch JVal.jnull initState).2.2 "hi"
     (handleResponse JVal.jnull) rfl⟩

theorem onKeyUp_nonalpha (s : ITState) (k : String)
    (hmeta : s.metaKey = false) (hvis : s.showSuggestion = true)
    (hk : isAplhaNumeric k = false) (hM : k ≠ "Meta") :
    onKeyUp s ⟨k, false⟩ = handleNonAlphaKeyPress s k := by
  simp [onKeyUp, hmeta, hvis, hk, hM]

/-- C5: with the popup visible (and no modifier suppression), a Backspace
on a non-empty typed word removes exactly the last character and keeps the
popup open, while a Backspace on an empty typed word clears the whole
composition state and hides the popup. -/
theorem c5_backspace_semantics (s : ITState)
    (hvis : s.showSuggestion = true) (hmeta : s.metaKey = false) :
    (s.typedWord ≠ "" →
      (onKeyUp s ⟨"Backspace", false⟩).typedWord = jsDropLast s.typedWord ∧
      (onKeyUp s ⟨"Backspace", false⟩).typedWord.length = s.typedWord.length - 1 ∧
      (onKeyUp s ⟨"Backspace", false⟩).showSuggestion = true) ∧
    (s.typedWord = "" →
      (onKeyUp s ⟨"Backspace", false⟩).typedWord = "" ∧
      (onKeyUp s ⟨"Backspace", false⟩).suggestion = [] ∧
      (onKeyUp s ⟨"Backspace", false⟩).selectedSuggestion = 0 ∧
      (onKeyUp s ⟨"Backspace", false⟩).showSuggestion = false) := by
  have hkey : onKeyUp s ⟨"Backspace", false⟩ =
      (if s.typedWord ≠ "" then { s with typedWord := jsDropLast s.typedWord }
       else clearSuggestion s) := by
    rw [onKeyUp_nonalpha s "Backspace" hmeta hvis (by decide) (by decide)]
    unfold handleNonAlphaKeyPress
    rw [if_neg (by decide), if_neg (by decide), if_neg (by decide),
        if_neg (by decide), if_pos rfl]
  rw [hkey]
  constructor
  · intro hne
    rw [if_pos hne]
    exact ⟨rfl, jsDropLast_length _, hvis⟩
  · intro he
    rw [if_neg (by simp [he])]
    exact ⟨rfl, rfl, rfl, rfl⟩

theorem c5_witness :
    (onKeyUp ⟨"a", "ab", [], true, 0, 0, false⟩ ⟨"Backspace", false⟩).typedWord =
      jsDropLast "ab" ∧
    (onKeyUp ⟨"a", "ab", [], true, 0, 0, false⟩ ⟨"Backspace", false⟩).typedWord.length =
      ("ab" : String).length - 1 ∧
    (onKeyUp ⟨"a", "ab", [], true, 0, 0, false⟩ ⟨"Backspace", false⟩).showSuggestion = true :=
  (c5_backspace_semantics ⟨"a", "ab", [], true, 0, 0, false⟩ rfl rfl).1 (by decide)

/-- C1 fails as stated when the chosen candidate is the empty string: the
JS truthiness test `if(selectedValue)` treats it as absent, so nothing is
spliced, whereas the claim demands that a space be inserted.  Concretely,
with `value = "ab"`, `cursorPosition = 1` and `suggestions = [""]`,
committing candidate 0 leaves the value `"ab"` instead of `"a b"`. -/
theorem c1_counterexample :
    ¬ ((selectSuggestion ⟨"ab", "x", [""], true, 0, 1, false⟩ 0).value =
         jsTake "ab" 1 ++ "" ++ " " ++ jsDrop "ab" 1 ∧
       (selectSuggestion ⟨"ab", "x", [""], true, 0, 1, false⟩ 0).cursorPosition =
         1 + String.length "" + 1) := by
  decide

/-- C1 (amended): committing a *non-empty* candidate `c` found at `idx`
splices it into the value with a trailing space,
`value[0:cursorPosition] ++ c ++ " " ++ value[cursorPosition:]`, and moves
the cursor to `cursorPosition + length c + 1`. -/
theorem c1_amended_commit_splice (s : ITState) (idx : Nat) (c : String)
    (hc : s.suggestion[idx]? = some c) (hne : c ≠ "") :
    (selectSuggestion s idx).value =
      jsTake s.value s.cursorPosition ++ c ++ " " ++ jsDrop s.value s.cursorPosition ∧
    (selectSuggestion s idx).cursorPosition = s.cursorPosition + c.length + 1 := by
  simp [selectSuggestion, List.getD, hc, hne, clearSuggestion]

theorem c1_witness :
    (selectSuggestion ⟨"ab", "x", ["na"], true, 0, 1, false⟩ 0).value =
      jsTake "ab" 1 ++ "na" ++ " " ++ jsDrop "ab" 1 ∧
    (selectSuggestion ⟨"ab", "x", ["na"], true, 0, 1, false⟩ 0).cursorPosition =
      1 + ("na" : String).length + 1 :=
  c1_amended_commit_splice ⟨"ab", "x", ["na"], true, 0, 1, false⟩ 0 "na" rfl (by decide)

/-- C4 fails as stated: in the alphanumeric case the handler returns before
`setValue`, so the controller does *not* adopt the field value.  With state
value `""` (popup hidden) and a native event reporting value `"a"` with
caret 1, the controller value stays `""`. -/
theorem c4_counterexample :
    (onChange ⟨"", "", [], false, 0, 5, false⟩ ⟨"a", 1, 1⟩).value ≠ "a" := by
  decide

/-- C4 (amended): with the popup hidden, when the character immediately
before the reported selection start is alphanumeric the controller only
retreats the recorded cursor to `selectionEnd - 1` and leaves its value
unchanged (the native edit is not adopted); otherwise it adopts both the
reported value and the reported cursor. -/
theorem c4_amended_onchange_passthrough (s : ITState) (ev : ChangeEvent)
    (hvis : s.showSuggestion = false) :
    (isAplhaNumeric (jsLast (jsTake ev.value ev.selectionStart)) = true →
      onChange s ev = { s with cursorPosition := ev.selectionEnd - 1 }) ∧
    (isAplhaNumeric (jsLast (jsTake ev.value ev.selectionStart)) = false →
      onChange s ev = { s with value := ev.value, cursorPosition := ev.selectionEnd }) := by
  constructor <;> intro h <;> simp [onChange, hvis, h]

theorem c4_witness :
    onChange ⟨"", "", [], false, 0, 5, false⟩ ⟨"a", 1, 1⟩ =
      ⟨"", "", [], false, 0, 0, false⟩ :=
  (c4_amended_onchange_passthrough ⟨"", "", [], false, 0, 5, false⟩ ⟨"a", 1, 1⟩ rfl).1
    (by decide)

theorem arrow_step (s : ITState) (k : String)
    (hk : k = "ArrowDown" ∨ k = "ArrowUp")
    (hvis : s.showSuggestion = true) (hmeta : s.metaKey = false)
    (hlt : s.selectedSuggestion < s.suggestion.length) :
    (onKeyUp s ⟨k, false⟩).selectedSuggestion < (onKeyUp s ⟨k, false⟩).suggestion.length ∧
    (onKeyUp s ⟨k, false⟩).suggestion = s.suggestion ∧
    (onKeyUp s ⟨k, false⟩).showSuggestion = true ∧
    (onKeyUp s ⟨k, false⟩).metaKey = false := by
  rcases hk with hk | hk <;> subst hk
  · rw [onKeyUp_nonalpha s _ hmeta hvis (by decide) (by decide)]
    unfold handleNonAlphaKeyPress
    rw [if_pos rfl]
    refine ⟨?_, rfl, hvis, hmeta⟩
    dsimp only
    by_cases hlt2 : s.selectedSuggestion < s.suggestion.length - 1
    · rw [if_pos hlt2]; omega
    · rw [if_neg hlt2]; exact hlt
  · rw [onKeyUp_nonalpha s _ hmeta hvis (by decide) (by decide)]
    unfold handleNonAlphaKeyPress
    rw [if_neg (by decide), if_pos rfl]
    refine ⟨?_, rfl, hvis, hmeta⟩
    dsimp only
    by_cases h0 : 0 < s.selectedSuggestion
    · rw [if_pos h0]; omega
    · rw [if_neg h0]; exact hlt

theorem arrows_fold (keys : List String) (s : ITState)
    (hkeys : ∀ k ∈ keys, k = "ArrowDown" ∨ k = "ArrowUp")
    (hvis : s.showSuggestion = true) (hmeta : s.metaKey = false)
    (hlt : s.selectedSuggestion < s.suggestion.length) :
    (keys.foldl (fun st k => onKeyUp st ⟨k, false⟩) s).selectedSuggestion <
      (keys.foldl (fun st k => onKeyUp st ⟨k, false⟩) s).suggestion.length ∧
    (keys.foldl (fun st k => onKeyUp st ⟨k, false⟩) s).suggestion = s.suggestion ∧
    (keys.foldl (fun st k => onKeyUp st ⟨k, false⟩) s).showSuggestion = true ∧
    (keys.foldl (fun st k => onKeyUp st ⟨k, false⟩) s).metaKey = false := by
  induction keys generalizing s with
  | nil => exact ⟨hlt, rfl, hvis, hmeta⟩
  | cons k ks ih =>
    have hk : k = "ArrowDown" ∨ k = "ArrowUp" := hkeys k (List.mem_cons_self k ks)
    have hstep := arrow_step s k hk hvis hmeta hlt
    have hrest := ih (onKeyUp s ⟨k, false⟩)
      (fun k2 hm => hkeys k2 (List.mem_cons_of_mem _ hm))
      hstep.2.2.1 hstep.2.2.2 hstep.1
    simp only [List.foldl_cons]
    exact ⟨hrest.1, hrest.2.1.trans hstep.2.1, hrest.2.2⟩

/-- C6: over any sequence of ArrowDown/ArrowUp events (popup visible, no
modifier suppression), `selectedIndex` stays within
`[0, length(suggestions) - 1]` and the suggestions list is untouched;
moreover ArrowDown at the last index and ArrowUp at index 0 leave
`selectedIndex` unchanged (no wraparound). -/
theorem c6_arrow_selection_clamped (keys : List String)
    (hkeys : ∀ k ∈ keys, k = "ArrowDown" ∨ k = "ArrowUp")
    (s : ITState) (hvis : s.showSuggestion = true) (hmeta : s.metaKey = false)
    (hlt : s.selectedSuggestion < s.suggestion.length) :
    ((keys.foldl (fun st k => onKeyUp st ⟨k, false⟩) s).selectedSuggestion <
       (keys.foldl (fun st k => onKeyUp st ⟨k, false⟩) s).suggestion.length ∧
     (keys.foldl (fun st k => onKeyUp st ⟨k, false⟩) s).suggestion = s.suggestion) ∧
    (s.selectedSuggestion = s.suggestion.length - 1 →
      (onKeyUp s ⟨"ArrowDown", false⟩).selectedSuggestion = s.selectedSuggestion) ∧
    (s.selectedSuggestion = 0 →
      (onKeyUp s ⟨"ArrowUp", false⟩).selectedSuggestion = 0) := by
  refine ⟨⟨(arrows_fold keys s hkeys hvis hmeta hlt).1,
           (arrows_fold keys s hkeys hvis hmeta hlt).2.1⟩, ?_, ?_⟩
  · intro hlast
    rw [onKeyUp_nonalpha s _ hmeta hvis (by decide) (by decide)]
    unfold handleNonAlphaKeyPress
    rw [if_pos rfl]
    dsimp only
    rw [if_neg (by omega)]
  · intro h0
    rw [onKeyUp_nonalpha s _ hmeta hvis (by decide) (by decide)]
    unfold handleNonAlphaKeyPress
    rw [if_neg (by decide), if_pos rfl]
    dsimp only
    rw [h0, if_neg (by omega)]

theorem c6_witness :
    ((["ArrowDown", "ArrowDown", "ArrowUp"].foldl
        (fun st k => onKeyUp st ⟨k, false⟩)
        ⟨"", "w", ["a", "b"], true, 0, 0, false⟩).selectedSuggestion <
       (["ArrowDown", "ArrowDown", "ArrowUp"].foldl
        (fun st k => onKeyUp st ⟨k, false⟩)
        ⟨"", "w", ["a", "b"], true, 0, 0, false⟩).suggestion.length ∧
     (["ArrowDown", "ArrowDown", "ArrowUp"].foldl
        (fun st k => onKeyUp st ⟨k, false⟩)
        ⟨"", "w", ["a", "b"], true, 0, 0, false⟩).suggestion = ["a", "b"]) ∧
    ((0 : Nat) = (["a", "b"] : List String).length - 1 →
      (onKeyUp ⟨"", "w", ["a", "b"], true, 0, 0, false⟩
        ⟨"ArrowDown", false⟩).selectedSuggestion = 0) ∧
    ((0 : Nat) = 0 →
      (onKeyUp ⟨"", "w", ["a", "b"], true, 0, 0, false⟩
        ⟨"ArrowUp", false⟩).selectedSuggestion = 0) :=
  c6_arrow_selection_clamped ["ArrowDown", "ArrowDown", "ArrowUp"]
    (by decide) ⟨"", "w", ["a", "b"], true, 0, 0, false⟩ rfl rfl (by decide)

/-- C2 fails as stated: the code never checks that the alternatives
component `dataRes[1]` is an array before spreading it.  The response
`["SUCCESS", [["x", 5]]]` is not of the claimed valid shape (5 is not an
array of alternatives), so per the claim the suggestions should stay
unchanged with no error; instead the spread `[...5]` raises a TypeError
(modelled by the `thrown` outcome, distinct from the silent `return`). -/
theorem c2_counterexample :
    handleResponse (JVal.jarr [JVal.jstr "SUCCESS",
        JVal.jarr [JVal.jarr [JVal.jstr "x", JVal.jnum 5]]]) =
      SearchOutcome.thrown ∧
    SearchOutcome.thrown ≠ SearchOutcome.silent :=
  ⟨rfl, by simp⟩

/-- C2 (amended): a response of the valid shape — an array of length ≥ 2,
element 0 the literal string SUCCESS, element 1 a non-empty array whose
first entry is an array `[original, alternatives, ...]` of length ≥ 2 with
`alternatives` itself an array — makes the suggestions list become
`alternatives` followed by `original` appended last; a response failing any
of the guards the code actually checks is silently discarded (suggestions
unchanged, no error); but a response passing those guards whose
alternatives component is a non-iterable value raises a TypeError from the
spread instead of being discarded. -/
theorem c2_amended_response_validation :
    (∀ orig alts frest erest drest,
      handleResponse (JVal.jarr (JVal.jstr "SUCCESS" ::
          JVal.jarr (JVal.jarr (orig :: JVal.jarr alts :: frest) :: erest) :: drest)) =
        SearchOutcome.setSuggestions (alts ++ [orig])) ∧
    (∀ data, passesChecks data = false → handleResponse data = SearchOutcome.silent) ∧
    (∀ orig n frest erest drest,
      handleResponse (JVal.jarr (JVal.jstr "SUCCESS" ::
          JVal.jarr (JVal.jarr (orig :: JVal.jnum n :: frest) :: erest) :: drest)) =
        SearchOutcome.thrown) := by
  refine ⟨?_, ?_, ?_⟩
  · intro orig alts frest erest drest
    simp [handleResponse, JVal.spread]
  · intro data h
    rcases data with s | xs | n | b | _
    · rfl
    · rcases xs with _ | ⟨d0, xs⟩
      · rfl
      · rcases xs with _ | ⟨d1, rest⟩
        · rcases d0 with s | ys | n | b | _ <;> rfl
        · rcases d0 with s | ys | n | b | _
          · by_cases hm : s = "SUCCESS"
            · subst hm
              rcases d1 with s1 | es | n1 | b1 | _
              · rfl
              · rcases es with _ | ⟨e0, es⟩
                · rfl
                · rcases e0 with s2 | fs | n2 | b2 | _
                  · rfl
                  · rcases fs with _ | ⟨f0, fs⟩
                    · rfl
                    · rcases fs with _ | ⟨f1, fs⟩
                      · rfl
                      · simp [passesChecks] at h
                  · rfl
                  · rfl
                  · rfl
              · rfl
              · rfl
              · rfl
            · simp [handleResponse, hm]
          · rfl
          · rfl
          · rfl
          · rfl
    · rfl
    · rfl
    · rfl
  · intro orig n frest erest drest
    simp [handleResponse, JVal.spread]

theorem c2_witness :
    handleResponse (JVal.jarr [JVal.jstr "SUCCESS",
        JVal.jarr [JVal.jarr [JVal.jstr "cafe",
          JVal.jarr [JVal.jstr "coffee", JVal.jstr "kaffe"]]]]) =
      SearchOutcome.setSuggestions
        ([JVal.jstr "coffee", JVal.jstr "kaffe"] ++ [JVal.jstr "cafe"]) ∧
    handleResponse (JVal.jarr [JVal.jstr "FAILURE"]) = SearchOutcome.silent :=
  ⟨c2_amended_response_validation.1 (JVal.jstr "cafe")
      [JVal.jstr "coffee", JVal.jstr "kaffe"] [] [] [],
   c2_amended_response_validation.2.1 (JVal.jarr [JVal.jstr "FAILURE"]) rfl⟩
